import Mathlib

/-!
Shallow embedding of the `Auth0Web` session-manager class from `src/index.ts`
(auth0-web). The class holds a token cache keyed by audience (a JS object),
an optional identity token, an optional user profile and a subscriber map
keyed by `Date.now()` timestamps. All provider-SDK interactions
(`checkSession`, `parseHash`, `userInfo`, `logout`) are modelled by passing
the provider's callback response as an explicit argument; observable side
effects (subscriber callbacks, hash clearing, the userInfo network fetch and
the logout redirect) are collected in an event list.
-/

/-- JS objects used as string/number-keyed maps, modelled as association
lists with JS property semantics: setting an existing key replaces the value
in place (keeping key order), setting a new key appends it. -/
def objGet {κ α : Type} [DecidableEq κ] : List (κ × α) → κ → Option α
  | [], _ => none
  | (k', v) :: rest, k => if k' = k then some v else objGet rest k

/-- JS property assignment `m[k] = v`. -/
def objSet {κ α : Type} [DecidableEq κ] : List (κ × α) → κ → α → List (κ × α)
  | [], k, v => [(k, v)]
  | (k', v') :: rest, k, v =>
    if k' = k then (k, v) :: rest else (k', v') :: objSet rest k v

/-- JS `delete m[k]`. -/
def objDel {κ α : Type} [DecidableEq κ] : List (κ × α) → κ → List (κ × α)
  | [], _ => []
  | (k', v') :: rest, k =>
    if k' = k then objDel rest k else (k', v') :: objDel rest k

/-- `const DEFAULT_KEY = 'default';` -/
def DEFAULT_KEY : String := "default"

/-- Entries of the `TokenMap` interface: `{accessToken, expiresAt}`. -/
structure TokenEntry where
  accessToken : String
  expiresAt : Nat
deriving Repr, DecidableEq

/-- The `AuthResult` interface delivered by the provider SDK on success. -/
structure AuthResult where
  accessToken : String
  idToken : String
  expiresIn : Nat
deriving Repr, DecidableEq

/-- An error object surfaced by the provider SDK. The `error` field is the
discriminator consulted by `checkSession` (`error.error !== 'login_required'`);
`none` models an error object lacking that field. -/
structure ProviderError where
  error : Option String
deriving Repr, DecidableEq

/-- Opaque user profile returned by the provider's `userInfo`. -/
abbrev Auth0UserProfile := String

/-- Observable side effects of the session manager. A subscriber callback is
identified by a `Nat` id; `notify cb b aud` records that callback `cb` was
invoked with `(authenticated := b, audience := aud)`. -/
inductive Event
  | notify (cb : Nat) (authenticated : Bool) (audience : Option String)
  | clearHash
  | userInfoFetch (accessToken : String)
  | logout (returnTo : Option String)
deriving Repr, DecidableEq

/-- The mutable state of an `Auth0Web` instance: `_accessTokens`, `_idToken`,
`_profile` and `_subscribers` (subscriber key `Date.now()` ↦ callback id). -/
structure Auth0Web where
  accessTokens : List (String × TokenEntry)
  idToken : Option String
  profile : Option Auth0UserProfile
  subscribers : List (Nat × Nat)
deriving Repr, DecidableEq

/-- The state right after construction: every field at its initializer. -/
def Auth0Web.init : Auth0Web := ⟨[], none, none, []⟩

/-- JS `audience || DEFAULT_KEY`: both `undefined` and `''` are falsy. -/
def jsOrDefault (audience : Option String) : String :=
  match audience with
  | none => DEFAULT_KEY
  | some s => if s = "" then DEFAULT_KEY else s


/-- `getProfile()`. -/
def getProfile (s : Auth0Web) : Option Auth0UserProfile := s.profile

/-- `getAccessToken(audience?)`: `undefined` when no entry matches, else the
entry's `accessToken` string. -/
def getAccessToken (s : Auth0Web) (audience : Option String := none) :
    Option String :=
  match objGet s.accessTokens (jsOrDefault audience) with
  | none => none
  | some e => some e.accessToken

/-- `isAuthenticated(audience?)`: `true` iff an entry exists at the key. -/
def isAuthenticated (s : Auth0Web) (audience : Option String := none) : Bool :=
  (objGet s.accessTokens (jsOrDefault audience)).isSome

/-- private `addAccessToken(accessToken, expiresAt, audience?)`: seeds the
default slot when empty, then writes the audience slot when `audience` is
truthy. (The guard `if (!this._accessTokens) this._accessTokens = {}` is dead
code here: the field is initialized to `{}` and only ever reassigned `{}`.) -/
def addAccessToken (s : Auth0Web) (accessToken : String) (expiresAt : Nat)
    (audience : Option String) : Auth0Web :=
  let details : TokenEntry := ⟨accessToken, expiresAt⟩
  let m1 := match objGet s.accessTokens DEFAULT_KEY with
            | some _ => s.accessTokens
            | none => objSet s.accessTokens DEFAULT_KEY details
  let m2 := match audience with
            | none => m1
            | some aud => if aud = "" then m1 else objSet m1 aud details
  { s with accessTokens := m2 }

/-- private `notifySubscribers(authenticated, audience?)`: invokes every
registered subscriber, as the list of `notify` events in registry order. -/
def notifySubscribers (s : Auth0Web) (authenticated : Bool)
    (audience : Option String := none) : List Event :=
  s.subscribers.map (fun kv => Event.notify kv.2 authenticated audience)

/-- private `clearSession()`. -/
def clearSession (s : Auth0Web) : Auth0Web × List Event :=
  let s' : Auth0Web :=
    { s with profile := none, accessTokens := [], idToken := none }
  (s', notifySubscribers s' false)

/-- `signOut(returnTo?)`: clears the session, then triggers the SDK logout
redirect. -/
def signOut (s : Auth0Web) (returnTo : Option String := none) :
    Auth0Web × List Event :=
  let r := clearSession s
  (r.1, r.2 ++ [Event.logout returnTo])

/-- Provider response to the `userInfo` fetch inside `loadProfile`. -/
abbrev UserInfoResp := Except ProviderError Auth0UserProfile

/-- private `loadProfile(authResult, audience?)`: fetches `userInfo`; on error
rejects with the provider's error; on success caches the token, stores the
identity token and profile, notifies subscribers with `true` and resolves.
Note the source resolves with `resolve()` — i.e. `undefined`, not the fetched
profile — so the resolved value is modelled as `Option Auth0UserProfile` and
is `none` on this path. `now` is the value of `Date.now()` in the callback. -/
def loadProfile (s : Auth0Web) (authResult : AuthResult)
    (audience : Option String) (now : Nat) (resp : UserInfoResp) :
    Auth0Web × Except ProviderError (Option Auth0UserProfile) × List Event :=
  match resp with
  | .error e => (s, .error e, [Event.userInfoFetch authResult.accessToken])
  | .ok profile =>
    let expiresAt := authResult.expiresIn * 1000 + now
    let s1 := addAccessToken s authResult.accessToken expiresAt audience
    let s2 := { s1 with idToken := some authResult.idToken,
                        profile := some profile }
    (s2, .ok none,
     Event.userInfoFetch authResult.accessToken :: notifySubscribers s2 true)

/-- private `handleAuthResult(authResult, audience?)`: clears the URL hash,
then runs `loadProfile`. -/
def handleAuthResult (s : Auth0Web) (authResult : AuthResult)
    (audience : Option String) (now : Nat) (resp : UserInfoResp) :
    Auth0Web × Except ProviderError (Option Auth0UserProfile) × List Event :=
  let r := loadProfile s authResult audience now resp
  (r.1, r.2.1, Event.clearHash :: r.2.2)

/-- Provider response to the SDK's `parseHash` / `checkSession` calls. -/
abbrev ParseResp := Except ProviderError AuthResult

/-- `parseHash()`: rejects with the parse error verbatim, or clears the hash
and runs `loadProfile` (with no audience), resolving with its value. -/
def parseHash (s : Auth0Web) (resp : ParseResp) (now : Nat)
    (uresp : UserInfoResp) :
    Auth0Web × Except ProviderError (Option Auth0UserProfile) × List Event :=
  match resp with
  | .error e => (s, .error e, [])
  | .ok authResult =>
    let r := loadProfile s authResult none now uresp
    (r.1, r.2.1, Event.clearHash :: r.2.2)

/-- `checkSession(audience?, scope = 'openid')`: rejects non-`login_required`
errors, resolves `false` on `login_required`, and on provider success either
short-circuits (already authenticated for the default audience: cache the new
token, resolve `true`) or runs the full `handleAuthResult` flow. -/
def checkSession (s : Auth0Web) (audience : Option String) (now : Nat)
    (resp : ParseResp) (uresp : UserInfoResp) :
    Auth0Web × Except ProviderError Bool × List Event :=
  match resp with
  | .error e =>
    if e.error ≠ some "login_required" then (s, .error e, [])
    else (s, .ok false, [])
  | .ok authResult =>
    if isAuthenticated s then
      let expiresAt := authResult.expiresIn * 1000 + now
      (addAccessToken s authResult.accessToken expiresAt audience,
       .ok true, [])
    else
      let r := handleAuthResult s authResult audience now uresp
      match r.2.1 with
      | .ok _ => (r.1, .ok true, r.2.2)
      | .error e => (r.1, .error e, r.2.2)

/-- `subscribe(subscriber)`: registers the callback under `Date.now()` and
returns that key (the unsubscribe closure captures it). -/
def subscribe (s : Auth0Web) (now : Nat) (cb : Nat) : Auth0Web × Nat :=
  ({ s with subscribers := objSet s.subscribers now cb }, now)

/-- The unsubscribe closure returned by `subscribe`: deletes the captured key. -/
def unsubscribe (s : Auth0Web) (key : Nat) : Auth0Web :=
  { s with subscribers := objDel s.subscribers key }

/-- One observable operation on a session-manager instance, with arbitrary
provider responses. -/
inductive Step : Auth0Web → Auth0Web → Prop
  | cs (s : Auth0Web) (a : Option String) (now : Nat) (resp : ParseResp)
      (uresp : UserInfoResp) : Step s (checkSession s a now resp uresp).1
  | ph (s : Auth0Web) (resp : ParseResp) (now : Nat) (uresp : UserInfoResp) :
      Step s (parseHash s resp now uresp).1
  | so (s : Auth0Web) (r : Option String) : Step s (signOut s r).1
  | sub (s : Auth0Web) (now cb : Nat) : Step s (subscribe s now cb).1
  | unsub (s : Auth0Web) (k : Nat) : Step s (unsubscribe s k)

/-- States reachable from a freshly constructed instance. -/
inductive Reachable : Auth0Web → Prop
  | init : Reachable Auth0Web.init
  | step {s t : Auth0Web} : Reachable s → Step s t → Reachable t

/-- Default-slot invariant on the token cache. -/
def defaultInv (s : Auth0Web) : Prop :=
  (∃ k e, objGet s.accessTokens k = some e) →
    (objGet s.accessTokens DEFAULT_KEY).isSome

/-- Rewrite every cached entry's `expiresAt` (for instance, move it into the
past) while keeping the token strings and keys: used to state that the
read-only accessors never consult expiry. -/
def mapExpiry (f : Nat → Nat) (s : Auth0Web) : Auth0Web :=
  { s with accessTokens :=
      s.accessTokens.map fun kv => (kv.1, ⟨kv.2.accessToken, f kv.2.expiresAt⟩) }

/-- The state produced by a successful `loadProfile`: token cached, identity
token and profile stored. -/
def loadedState (s : Auth0Web) (r : AuthResult) (a : Option String)
    (now : Nat) (p : Auth0UserProfile) : Auth0Web :=
  { addAccessToken s r.accessToken (r.expiresIn * 1000 + now) a with
      idToken := some r.idToken, profile := some p }

/-! Lemmas about the JS-object map operations. -/

theorem objGet_nil {κ α : Type} [DecidableEq κ] (k : κ) :
    objGet ([] : List (κ × α)) k = none := rfl

theorem objGet_objSet_self {κ α : Type} [DecidableEq κ]
    (m : List (κ × α)) (k : κ) (v : α) :
    objGet (objSet m k v) k = some v := by
  induction m with
  | nil => simp [objGet, objSet]
  | cons p rest ih =>
    obtain ⟨k', v'⟩ := p
    by_cases h : k' = k
    · simp [objGet, objSet, h]
    · simp [objGet, objSet, h, ih]

theorem objGet_objSet_ne {κ α : Type} [DecidableEq κ]
    (m : List (κ × α)) (k k' : κ) (v : α) (h : k' ≠ k) :
    objGet (objSet m k v) k' = objGet m k' := by
  have hne : k ≠ k' := Ne.symm h
  induction m with
  | nil => simp [objGet, objSet, hne]
  | cons p rest ih =>
    obtain ⟨k0, v0⟩ := p
    by_cases h0 : k0 = k
    · subst h0
      simp [objGet, objSet, hne]
    · simp [objGet, objSet, h0, ih]

theorem objSet_of_getNone {κ α : Type} [DecidableEq κ]
    (m : List (κ × α)) (k : κ) (v : α) (h : objGet m k = none) :
    objSet m k v = m ++ [(k, v)] := by
  induction m with
  | nil => rfl
  | cons p rest ih =>
    obtain ⟨k', v'⟩ := p
    by_cases h0 : k' = k
    · simp [objGet, h0] at h
    · simp only [objGet, if_neg h0] at h
      simp [objSet, h0, ih h]

theorem objDel_of_getNone {κ α : Type} [DecidableEq κ]
    (m : List (κ × α)) (k : κ) (h : objGet m k = none) :
    objDel m k = m := by
  induction m with
  | nil => rfl
  | cons p rest ih =>
    obtain ⟨k', v'⟩ := p
    by_cases h0 : k' = k
    · simp [objGet, h0] at h
    · simp only [objGet, if_neg h0] at h
      simp [objDel, h0, ih h]

theorem objDel_append_one {κ α : Type} [DecidableEq κ]
    (m : List (κ × α)) (k : κ) (v : α) (h : objGet m k = none) :
    objDel (m ++ [(k, v)]) k = m := by
  induction m with
  | nil => simp [objDel]
  | cons p rest ih =>
    obtain ⟨k', v'⟩ := p
    by_cases h0 : k' = k
    · simp [objGet, h0] at h
    · simp only [objGet, if_neg h0] at h
      simp [objDel, h0, ih h]

theorem objGet_map_val {κ α β : Type} [DecidableEq κ]
    (f : α → β) (m : List (κ × α)) (k : κ) :
    objGet (m.map fun p => (p.1, f p.2)) k = (objGet m k).map f := by
  induction m with
  | nil => rfl
  | cons p rest ih =>
    obtain ⟨k', v'⟩ := p
    by_cases h : k' = k
    · simp [objGet, h]
    · simp [objGet, h, ih]

/-! Lemmas about `addAccessToken`. -/

theorem addAccessToken_default_isSome (s : Auth0Web) (t : String) (ea : Nat)
    (a : Option String) :
    (objGet (addAccessToken s t ea a).accessTokens DEFAULT_KEY).isSome := by
  unfold addAccessToken
  cases hd : objGet s.accessTokens DEFAULT_KEY with
  | none =>
    match a with
    | none => simp [hd, objGet_objSet_self]
    | some aud =>
      by_cases he : aud = ""
      · simp [hd, he, objGet_objSet_self]
      · simp only [hd]
        rw [if_neg he]
        by_cases h2 : DEFAULT_KEY = aud
        · rw [h2, objGet_objSet_self]; rfl
        · rw [objGet_objSet_ne _ _ _ _ h2, objGet_objSet_self]; rfl
  | some e =>
    match a with
    | none => simp [hd]
    | some aud =>
      by_cases he : aud = ""
      · simp [hd, he]
      · simp only [hd]
        rw [if_neg he]
        by_cases h2 : DEFAULT_KEY = aud
        · rw [h2, objGet_objSet_self]; rfl
        · rw [objGet_objSet_ne _ _ _ _ h2, hd]; rfl

theorem addAccessToken_default_of_none (s : Auth0Web) (t : String) (ea : Nat)
    (a : Option String) (h : objGet s.accessTokens DEFAULT_KEY = none) :
    objGet (addAccessToken s t ea a).accessTokens DEFAULT_KEY =
      some ⟨t, ea⟩ := by
  unfold addAccessToken
  match a with
  | none => simp [h, objGet_objSet_self]
  | some aud =>
    by_cases he : aud = ""
    · simp [h, he, objGet_objSet_self]
    · simp only [h]
      rw [if_neg he]
      by_cases h2 : DEFAULT_KEY = aud
      · rw [h2, objGet_objSet_self]
      · rw [objGet_objSet_ne _ _ _ _ h2, objGet_objSet_self]

theorem addAccessToken_default_of_isSome (s : Auth0Web) (t : String) (ea : Nat)
    (a : Option String) (h : (objGet s.accessTokens DEFAULT_KEY).isSome)
    (ha : a ≠ some DEFAULT_KEY) :
    objGet (addAccessToken s t ea a).accessTokens DEFAULT_KEY =
      objGet s.accessTokens DEFAULT_KEY := by
  unfold addAccessToken
  obtain ⟨e, hd⟩ := Option.isSome_iff_exists.mp h
  match a with
  | none => simp [hd]
  | some aud =>
    have h2 : DEFAULT_KEY ≠ aud := fun hh => ha (by rw [hh])
    by_cases he : aud = ""
    · simp [hd, he]
    · simp only [hd]
      rw [if_neg he, objGet_objSet_ne _ _ _ _ h2, hd]

theorem addAccessToken_get_audience (s : Auth0Web) (t : String) (ea : Nat)
    (aud : String) (h : aud ≠ "") :
    objGet (addAccessToken s t ea (some aud)).accessTokens aud =
      some ⟨t, ea⟩ := by
  unfold addAccessToken
  cases hd : objGet s.accessTokens DEFAULT_KEY with
  | none => simp only [hd]; rw [if_neg h]; exact objGet_objSet_self _ _ _
  | some e => simp only [hd]; rw [if_neg h]; exact objGet_objSet_self _ _ _

theorem addAccessToken_frame (s : Auth0Web) (t : String) (ea : Nat)
    (a : Option String) :
    (addAccessToken s t ea a).idToken = s.idToken ∧
    (addAccessToken s t ea a).profile = s.profile ∧
    (addAccessToken s t ea a).subscribers = s.subscribers := by
  unfold addAccessToken
  exact ⟨rfl, rfl, rfl⟩

/-! Token-cache effect of each operation, for the reachability invariant. -/

theorem subscribe_accessTokens (s : Auth0Web) (now cb : Nat) :
    (subscribe s now cb).1.accessTokens = s.accessTokens := rfl

theorem unsubscribe_accessTokens (s : Auth0Web) (k : Nat) :
    (unsubscribe s k).accessTokens = s.accessTokens := rfl

theorem signOut_accessTokens (s : Auth0Web) (r : Option String) :
    (signOut s r).1.accessTokens = [] := rfl

theorem checkSession_tokens_cases (s : Auth0Web) (a : Option String)
    (now : Nat) (resp : ParseResp) (uresp : UserInfoResp) :
    (checkSession s a now resp uresp).1.accessTokens = s.accessTokens ∨
    (objGet (checkSession s a now resp uresp).1.accessTokens
      DEFAULT_KEY).isSome := by
  cases resp with
  | error e =>
    simp only [checkSession]
    by_cases h : e.error ≠ some "login_required"
    · rw [if_pos h]; left; rfl
    · rw [if_neg h]; left; rfl
  | ok r =>
    simp only [checkSession]
    by_cases h : isAuthenticated s
    · rw [if_pos h]
      right
      exact addAccessToken_default_isSome _ _ _ _
    · rw [if_neg h]
      cases uresp with
      | error e =>
        simp only [handleAuthResult, loadProfile]
        left; trivial
      | ok p =>
        simp only [handleAuthResult, loadProfile]
        right
        exact addAccessToken_default_isSome _ _ _ _

theorem parseHash_tokens_cases (s : Auth0Web) (resp : ParseResp) (now : Nat)
    (uresp : UserInfoResp) :
    (parseHash s resp now uresp).1.accessTokens = s.accessTokens ∨
    (objGet (parseHash s resp now uresp).1.accessTokens DEFAULT_KEY).isSome := by
  cases resp with
  | error e => left; rfl
  | ok r =>
    cases uresp with
    | error e => left; rfl
    | ok p =>
      simp only [parseHash, loadProfile]
      right
      exact addAccessToken_default_isSome _ _ _ _


theorem defaultInv_init : defaultInv Auth0Web.init := by
  rintro ⟨k, e, hk⟩
  simp [Auth0Web.init, objGet] at hk

theorem defaultInv_of_tokens_eq {s t : Auth0Web}
    (h : t.accessTokens = s.accessTokens) (hs : defaultInv s) :
    defaultInv t := by
  intro hex
  rw [h] at hex ⊢
  exact hs hex

theorem reachable_defaultInv (s : Auth0Web) (hr : Reachable s) :
    defaultInv s := by
  induction hr with
  | init => exact defaultInv_init
  | step hr hs ih =>
    rename_i u t
    cases hs with
    | cs a now resp uresp =>
      rcases checkSession_tokens_cases u a now resp uresp with h | h
      · exact defaultInv_of_tokens_eq h ih
      · exact fun _ => h
    | ph resp now uresp =>
      rcases parseHash_tokens_cases u resp now uresp with h | h
      · exact defaultInv_of_tokens_eq h ih
      · exact fun _ => h
    | so r =>
      rintro ⟨k, e, hk⟩
      rw [signOut_accessTokens] at hk
      simp [objGet] at hk
    | sub now cb =>
      exact defaultInv_of_tokens_eq (subscribe_accessTokens u now cb) ih
    | unsub k =>
      exact defaultInv_of_tokens_eq (unsubscribe_accessTokens u k) ih

/-- C1: for every `checkSession` invocation where the provider's callback
reports an error, if the error's discriminator equals `login_required` the
promise resolves `false` with the state (hence `isAuthenticated()`)
unchanged; any other error is rejected verbatim. -/
theorem checkSession_error_paths (s : Auth0Web) (a : Option String) (now : Nat)
    (e : ProviderError) (uresp : UserInfoResp) :
    (e.error = some "login_required" →
      checkSession s a now (.error e) uresp = (s, .ok false, []) ∧
      isAuthenticated (checkSession s a now (.error e) uresp).1 =
        isAuthenticated s) ∧
    (e.error ≠ some "login_required" →
      checkSession s a now (.error e) uresp = (s, .error e, [])) := by
  constructor
  · intro h
    have hn : ¬e.error ≠ some "login_required" := by simp [h]
    simp only [checkSession]
    rw [if_neg hn]
    exact ⟨rfl, rfl⟩
  · intro h
    simp only [checkSession]
    rw [if_pos h]

/-- Witness for C1 at concrete inputs: `login_required` resolves `false`
leaving the fresh state untouched; `invalid_token` rejects verbatim. -/
theorem checkSession_error_paths_witness :
    (checkSession Auth0Web.init none 0 (.error ⟨some "login_required"⟩)
        (.ok "p") = (Auth0Web.init, .ok false, []) ∧
      isAuthenticated (checkSession Auth0Web.init none 0
          (.error ⟨some "login_required"⟩) (.ok "p")).1 =
        isAuthenticated Auth0Web.init) ∧
    checkSession Auth0Web.init none 0 (.error ⟨some "invalid_token"⟩)
        (.ok "p") = (Auth0Web.init, .error ⟨some "invalid_token"⟩, []) :=
  ⟨(checkSession_error_paths Auth0Web.init none 0 ⟨some "login_required"⟩
      (.ok "p")).1 rfl,
   (checkSession_error_paths Auth0Web.init none 0 ⟨some "invalid_token"⟩
      (.ok "p")).2 (by decide)⟩

/-- C2 (amended): in every reachable token-cache state, if any entry exists a
default entry exists; a token addition via successful authentication seeds
the default slot when absent, and does not overwrite it when present
provided the supplied audience is not itself the literal string `default`. -/
theorem default_slot_invariant :
    (∀ s, Reachable s → (∃ k e, objGet s.accessTokens k = some e) →
      (objGet s.accessTokens DEFAULT_KEY).isSome) ∧
    (∀ s t ea a, objGet s.accessTokens DEFAULT_KEY = none →
      objGet (addAccessToken s t ea a).accessTokens DEFAULT_KEY =
        some ⟨t, ea⟩) ∧
    (∀ s t ea a, (objGet s.accessTokens DEFAULT_KEY).isSome →
      a ≠ some DEFAULT_KEY →
      objGet (addAccessToken s t ea a).accessTokens DEFAULT_KEY =
        objGet s.accessTokens DEFAULT_KEY) :=
  ⟨fun s hr => reachable_defaultInv s hr,
   fun s t ea a h => addAccessToken_default_of_none s t ea a h,
   fun s t ea a h ha => addAccessToken_default_of_isSome s t ea a h ha⟩

/-- Counterexample to C2 as stated: an audience-scoped addition whose
audience is the literal string `default` (here the short-circuit path of a
successful `checkSession("default")`) replaces the existing default entry
`tok1` with `tok2`, so a successful authentication can overwrite a present
default slot. -/
theorem default_slot_overwrite_counterexample :
    (checkSession Auth0Web.init none 0 (.ok ⟨"tok1", "id1", 3600⟩)
        (.ok "alice")).1.accessTokens =
      [("default", ⟨"tok1", 3600000⟩)] ∧
    (checkSession (checkSession Auth0Web.init none 0
          (.ok ⟨"tok1", "id1", 3600⟩) (.ok "alice")).1
        (some "default") 10 (.ok ⟨"tok2", "id2", 3600⟩) (.ok "bob")).2.1 =
      .ok true ∧
    (checkSession (checkSession Auth0Web.init none 0
          (.ok ⟨"tok1", "id1", 3600⟩) (.ok "alice")).1
        (some "default") 10 (.ok ⟨"tok2", "id2", 3600⟩)
        (.ok "bob")).1.accessTokens =
      [("default", ⟨"tok2", 3600010⟩)] := by
  refine ⟨?_, ?_, ?_⟩ <;> rfl

/-- Witness for C2 at concrete inputs: a reachable one-entry cache has its
default slot occupied; seeding on an empty cache and preservation on an
occupied one, evaluated. -/
theorem default_slot_invariant_witness :
    (objGet (checkSession Auth0Web.init none 0 (.ok ⟨"tok1", "id1", 3600⟩)
        (.ok "alice")).1.accessTokens DEFAULT_KEY).isSome ∧
    objGet (addAccessToken Auth0Web.init "tok1" 5
        (some "urn:api")).accessTokens DEFAULT_KEY = some ⟨"tok1", 5⟩ ∧
    objGet (addAccessToken (addAccessToken Auth0Web.init "tok1" 5 none)
        "tok2" 9 (some "urn:api")).accessTokens DEFAULT_KEY =
      objGet (addAccessToken Auth0Web.init "tok1" 5 none).accessTokens
        DEFAULT_KEY :=
  ⟨default_slot_invariant.1 _
      (Reachable.step Reachable.init
        (Step.cs Auth0Web.init none 0 (.ok ⟨"tok1", "id1", 3600⟩)
          (.ok "alice")))
      ⟨DEFAULT_KEY, ⟨"tok1", 3600000⟩, by decide⟩,
   default_slot_invariant.2.1 _ _ _ _ (by decide),
   default_slot_invariant.2.2 _ _ _ _ (by decide) (by decide)⟩

/-- C5: `signOut` empties the entire token cache, removes profile and
identity token (so every audience reads unauthenticated with no token and
`getProfile()` is absent), notifies every subscriber with
`authenticated = false`, and only then triggers the SDK logout redirect. -/
theorem signOut_clears_all (s : Auth0Web) (r : Option String) :
    (signOut s r).1.accessTokens = [] ∧
    (signOut s r).1.idToken = none ∧
    getProfile (signOut s r).1 = none ∧
    (∀ a, isAuthenticated (signOut s r).1 a = false) ∧
    (∀ a, getAccessToken (signOut s r).1 a = none) ∧
    (signOut s r).2 =
      (s.subscribers.map fun kv => Event.notify kv.2 false none) ++
        [Event.logout r] := by
  refine ⟨rfl, rfl, rfl, ?_, ?_, rfl⟩
  · intro a
    simp [signOut, clearSession, isAuthenticated, objGet]
  · intro a
    simp [signOut, clearSession, getAccessToken, objGet]

/-- C7: when the provider's `userInfo` fetch fails, `loadProfile` rejects
with that error and the state is returned exactly as it was: no token,
profile, identity-token or subscriber mutation, and the only event is the
fetch itself — no notification. -/
theorem loadProfile_error_atomic (s : Auth0Web) (ar : AuthResult)
    (a : Option String) (now : Nat) (e : ProviderError) :
    loadProfile s ar a now (.error e) =
      (s, .error e, [Event.userInfoFetch ar.accessToken]) := rfl

/-! Helper equations for the success paths of `checkSession` and `parseHash`. -/

theorem checkSession_shortcut_eq (s : Auth0Web) (a : Option String) (now : Nat)
    (r : AuthResult) (uresp : UserInfoResp) (h : isAuthenticated s = true) :
    checkSession s a now (.ok r) uresp =
      (addAccessToken s r.accessToken (r.expiresIn * 1000 + now) a,
       .ok true, []) := by
  simp only [checkSession]
  rw [if_pos h]

theorem checkSession_load_eq (s : Auth0Web) (a : Option String) (now : Nat)
    (r : AuthResult) (p : Auth0UserProfile) (h : isAuthenticated s = false) :
    checkSession s a now (.ok r) (.ok p) =
      (loadedState s r a now p, .ok true,
       Event.clearHash :: Event.userInfoFetch r.accessToken ::
         (s.subscribers.map fun kv => Event.notify kv.2 true none)) := by
  have hb : ¬isAuthenticated s = true := by simp [h]
  simp only [checkSession]
  rw [if_neg hb]
  rfl

theorem checkSession_loadErr_eq (s : Auth0Web) (a : Option String) (now : Nat)
    (r : AuthResult) (e : ProviderError) (h : isAuthenticated s = false) :
    checkSession s a now (.ok r) (.error e) =
      (s, .error e, [Event.clearHash, Event.userInfoFetch r.accessToken]) := by
  have hb : ¬isAuthenticated s = true := by simp [h]
  simp only [checkSession]
  rw [if_neg hb]
  rfl

theorem parseHash_load_eq (s : Auth0Web) (r : AuthResult) (now : Nat)
    (p : Auth0UserProfile) :
    parseHash s (.ok r) now (.ok p) =
      (loadedState s r none now p, .ok none,
       Event.clearHash :: Event.userInfoFetch r.accessToken ::
         (s.subscribers.map fun kv => Event.notify kv.2 true none)) := rfl

theorem getAccessToken_isSome (s : Auth0Web) (a : Option String) :
    (getAccessToken s a).isSome = isAuthenticated s a := by
  unfold getAccessToken isAuthenticated
  cases objGet s.accessTokens (jsOrDefault a) <;> rfl

theorem isAuthenticated_addAccessToken (s : Auth0Web) (t : String) (ea : Nat)
    (a : Option String) :
    isAuthenticated (addAccessToken s t ea a) a = true := by
  unfold isAuthenticated
  match a with
  | none =>
    simp only [jsOrDefault]
    exact addAccessToken_default_isSome s t ea none
  | some aud =>
    by_cases he : aud = ""
    · simp only [jsOrDefault, if_pos he]
      exact addAccessToken_default_isSome s t ea (some aud)
    · simp only [jsOrDefault, if_neg he]
      rw [addAccessToken_get_audience s t ea aud he]
      rfl

theorem isAuthenticated_false_iff (s : Auth0Web) :
    isAuthenticated s = false ↔ objGet s.accessTokens DEFAULT_KEY = none := by
  unfold isAuthenticated
  have hk : jsOrDefault none = DEFAULT_KEY := rfl
  rw [hk]
  cases objGet s.accessTokens DEFAULT_KEY <;> simp

/-- C3: when the provider responds successfully and a default token entry
already exists, `checkSession(audience)` emits no events (no profile
re-fetch, no notification), resolves `true`, caches
`expiresAt = expiresIn*1000 + now` for the given audience, and leaves
`getProfile()` (and the identity token) unchanged. -/
theorem checkSession_short_circuit (s : Auth0Web) (a : Option String)
    (now : Nat) (r : AuthResult) (uresp : UserInfoResp)
    (h : isAuthenticated s = true) :
    (checkSession s a now (.ok r) uresp).2.1 = .ok true ∧
    (checkSession s a now (.ok r) uresp).2.2 = [] ∧
    (checkSession s a now (.ok r) uresp).1 =
      addAccessToken s r.accessToken (r.expiresIn * 1000 + now) a ∧
    getProfile (checkSession s a now (.ok r) uresp).1 = getProfile s ∧
    (checkSession s a now (.ok r) uresp).1.idToken = s.idToken ∧
    (∀ aud, a = some aud → aud ≠ "" →
      objGet (checkSession s a now (.ok r) uresp).1.accessTokens aud =
        some ⟨r.accessToken, r.expiresIn * 1000 + now⟩) := by
  have key := checkSession_shortcut_eq s a now r uresp h
  refine ⟨?_, ?_, ?_, ?_, ?_, ?_⟩
  · rw [key]
  · rw [key]
  · rw [key]
  · rw [key]; rfl
  · rw [key]; rfl
  · intro aud ha he
    rw [key]
    subst ha
    exact addAccessToken_get_audience s _ _ aud he

/-- Witness for C3 at a concrete authenticated state: `checkSession` for a
fresh audience resolves `true`, emits nothing, keeps the profile, and caches
`7200*1000 + 3`. -/
theorem checkSession_short_circuit_witness :
    (checkSession ⟨[("default", ⟨"tok0", 50⟩)], some "id0", some "p0",
        [(1, 7)]⟩ (some "urn:other") 3 (.ok ⟨"tokN", "idN", 7200⟩)
        (.ok "q")).2.1 = .ok true ∧
    (checkSession ⟨[("default", ⟨"tok0", 50⟩)], some "id0", some "p0",
        [(1, 7)]⟩ (some "urn:other") 3 (.ok ⟨"tokN", "idN", 7200⟩)
        (.ok "q")).2.2 = [] ∧
    getProfile (checkSession ⟨[("default", ⟨"tok0", 50⟩)], some "id0",
        some "p0", [(1, 7)]⟩ (some "urn:other") 3 (.ok ⟨"tokN", "idN", 7200⟩)
        (.ok "q")).1 = some "p0" ∧
    objGet (checkSession ⟨[("default", ⟨"tok0", 50⟩)], some "id0", some "p0",
        [(1, 7)]⟩ (some "urn:other") 3 (.ok ⟨"tokN", "idN", 7200⟩)
        (.ok "q")).1.accessTokens "urn:other" = some ⟨"tokN", 7200003⟩ := by
  have H := checkSession_short_circuit
    ⟨[("default", ⟨"tok0", 50⟩)], some "id0", some "p0", [(1, 7)]⟩
    (some "urn:other") 3 ⟨"tokN", "idN", 7200⟩ (.ok "q") (by decide)
  exact ⟨H.1, H.2.1, H.2.2.2.1.trans rfl,
    H.2.2.2.2.2 "urn:other" rfl (by decide)⟩

/-- C4 (code bug): `parseHash` passes parse errors through verbatim and on a
successful parse clears the hash and loads the profile as claimed, but the
promise resolves with no value: `loadProfile` calls `resolve()` — resolving
`undefined` rather than the fetched profile, contradicting the declared
return type `Promise<Auth0UserProfile>`. Evaluated at a successful parse:
the profile `alice` is fetched and stored, yet the resolution value is
empty. -/
theorem parseHash_resolves_undefined :
    (parseHash Auth0Web.init (.ok ⟨"tok", "id", 3600⟩) 0 (.ok "alice")).2.1 =
      .ok none ∧
    getProfile (parseHash Auth0Web.init (.ok ⟨"tok", "id", 3600⟩) 0
        (.ok "alice")).1 = some "alice" ∧
    (∀ s e now u, parseHash s (.error e) now u = (s, .error e, [])) ∧
    (parseHash Auth0Web.init (.ok ⟨"tok", "id", 3600⟩) 0 (.ok "alice")).2.2 =
      [Event.clearHash, Event.userInfoFetch "tok"] := by
  refine ⟨rfl, rfl, fun s e now u => rfl, rfl⟩

/-- C6: a successful `checkSession(a)` (profile fetch succeeding when taken)
resolves `true` and leaves the requested audience authenticated with a cached
token string; on the profile-loading path (no prior default entry) the seeded
entry carries `expiresAt = expiresIn*1000 + now` and the identity token and
profile are stored with every subscriber notified `authenticated = true`;
likewise a successful `parseHash()` for the default slot. -/
theorem authenticated_after_success (s : Auth0Web) (a : Option String)
    (now : Nat) (r : AuthResult) (p : Auth0UserProfile) :
    ((checkSession s a now (.ok r) (.ok p)).2.1 = .ok true ∧
     isAuthenticated (checkSession s a now (.ok r) (.ok p)).1 a = true ∧
     (getAccessToken (checkSession s a now (.ok r) (.ok p)).1 a).isSome =
       true) ∧
    (isAuthenticated s = false →
      objGet (checkSession s a now (.ok r) (.ok p)).1.accessTokens
          DEFAULT_KEY = some ⟨r.accessToken, r.expiresIn * 1000 + now⟩ ∧
      (checkSession s a now (.ok r) (.ok p)).1.idToken = some r.idToken ∧
      (checkSession s a now (.ok r) (.ok p)).1.profile = some p ∧
      (checkSession s a now (.ok r) (.ok p)).2.2 =
        Event.clearHash :: Event.userInfoFetch r.accessToken ::
          (s.subscribers.map fun kv => Event.notify kv.2 true none)) ∧
    ((parseHash s (.ok r) now (.ok p)).1.profile = some p ∧
     (parseHash s (.ok r) now (.ok p)).1.idToken = some r.idToken ∧
     isAuthenticated (parseHash s (.ok r) now (.ok p)).1 = true ∧
     (getAccessToken (parseHash s (.ok r) now (.ok p)).1).isSome = true ∧
     (isAuthenticated s = false →
       objGet (parseHash s (.ok r) now (.ok p)).1.accessTokens DEFAULT_KEY =
         some ⟨r.accessToken, r.expiresIn * 1000 + now⟩) ∧
     (parseHash s (.ok r) now (.ok p)).2.2 =
       Event.clearHash :: Event.userInfoFetch r.accessToken ::
         (s.subscribers.map fun kv => Event.notify kv.2 true none)) := by
  refine ⟨?_, ?_, ?_⟩
  · cases hb : isAuthenticated s with
    | true =>
      rw [checkSession_shortcut_eq s a now r (.ok p) hb]
      refine ⟨rfl, isAuthenticated_addAccessToken s _ _ a, ?_⟩
      rw [getAccessToken_isSome]
      exact isAuthenticated_addAccessToken s _ _ a
    | false =>
      rw [checkSession_load_eq s a now r p hb]
      refine ⟨rfl, isAuthenticated_addAccessToken s _ _ a, ?_⟩
      rw [getAccessToken_isSome]
      exact isAuthenticated_addAccessToken s _ _ a
  · intro hb
    rw [checkSession_load_eq s a now r p hb]
    exact ⟨addAccessToken_default_of_none s _ _ a
        ((isAuthenticated_false_iff s).mp hb), rfl, rfl, rfl⟩
  · rw [parseHash_load_eq s r now p]
    refine ⟨rfl, rfl, isAuthenticated_addAccessToken s _ _ none, ?_, ?_, rfl⟩
    · rw [getAccessToken_isSome]
      exact isAuthenticated_addAccessToken s _ _ none
    · intro hb
      exact addAccessToken_default_of_none s _ _ none
        ((isAuthenticated_false_iff s).mp hb)

/-- Witness for C6 on a fresh manager: `checkSession("urn:api")` succeeding
with `tok1`/3600 seeds the default slot with `expiresAt = 3600000`, reports
the audience authenticated, and `parseHash` stores the fetched profile. -/
theorem authenticated_after_success_witness :
    (checkSession Auth0Web.init (some "urn:api") 0 (.ok ⟨"tok1", "id1", 3600⟩)
        (.ok "alice")).2.1 = .ok true ∧
    isAuthenticated (checkSession Auth0Web.init (some "urn:api") 0
        (.ok ⟨"tok1", "id1", 3600⟩) (.ok "alice")).1 (some "urn:api") =
      true ∧
    objGet (checkSession Auth0Web.init (some "urn:api") 0
        (.ok ⟨"tok1", "id1", 3600⟩) (.ok "alice")).1.accessTokens
      DEFAULT_KEY = some ⟨"tok1", 3600000⟩ ∧
    (parseHash Auth0Web.init (.ok ⟨"tok1", "id1", 3600⟩) 0
        (.ok "alice")).1.profile = some "alice" :=
  let H := authenticated_after_success Auth0Web.init (some "urn:api") 0
    ⟨"tok1", "id1", 3600⟩ "alice"
  ⟨H.1.1, H.1.2.1, (H.2.1 (by decide)).1, H.2.2.1⟩

/-- C8 counterexample: two `subscribe` calls inside the same millisecond
share the `Date.now()` key `5`, so the second registration overwrites the
first; after callback 2's unsubscribe closure runs, a notification reaches
nobody — callback 1, never unsubscribed, receives nothing. -/
theorem subscribe_collision_counterexample :
    (subscribe Auth0Web.init 5 1).1.subscribers = [(5, 1)] ∧
    (subscribe (subscribe Auth0Web.init 5 1).1 5 2).1.subscribers =
      [(5, 2)] ∧
    notifySubscribers
        (unsubscribe (subscribe (subscribe Auth0Web.init 5 1).1 5 2).1
          (subscribe (subscribe Auth0Web.init 5 1).1 5 2).2) true none =
      [] :=
  ⟨rfl, rfl, rfl⟩

/-- C8 (amended): provided the `Date.now()` key is fresh (the two subscribe
calls fall in distinct timestamp ticks), `subscribe` registers exactly one
new entry and the returned closure removes exactly it: the unsubscribed
callback gets no later notification while every previously registered
subscriber still receives every notification. -/
theorem subscribe_unsubscribe_exact (s : Auth0Web) (now cb : Nat)
    (h : objGet s.subscribers now = none) :
    (subscribe s now cb).1.subscribers = s.subscribers ++ [(now, cb)] ∧
    (unsubscribe (subscribe s now cb).1 (subscribe s now cb).2).subscribers =
      s.subscribers ∧
    (∀ b aud, notifySubscribers (subscribe s now cb).1 b aud =
      notifySubscribers s b aud ++ [Event.notify cb b aud]) ∧
    (∀ b aud, notifySubscribers
        (unsubscribe (subscribe s now cb).1 (subscribe s now cb).2) b aud =
      notifySubscribers s b aud) := by
  have h1 : (subscribe s now cb).1.subscribers =
      s.subscribers ++ [(now, cb)] := objSet_of_getNone _ _ _ h
  have h2 : (unsubscribe (subscribe s now cb).1
      (subscribe s now cb).2).subscribers = s.subscribers := by
    show objDel (objSet s.subscribers now cb) now = s.subscribers
    rw [objSet_of_getNone _ _ _ h]
    exact objDel_append_one _ _ _ h
  refine ⟨h1, h2, ?_, ?_⟩
  · intro b aud
    unfold notifySubscribers
    rw [h1, List.map_append]
    rfl
  · intro b aud
    unfold notifySubscribers
    rw [h2]

/-- Witness for C8 (amended) at distinct timestamps: with callback 1
registered at tick 5, callback 2 subscribes at tick 7 and its unsubscribe
removes only itself; callback 1 is notified throughout. -/
theorem subscribe_unsubscribe_exact_witness :
    (subscribe ⟨[], none, none, [(5, 1)]⟩ 7 2).1.subscribers =
      [(5, 1), (7, 2)] ∧
    (unsubscribe (subscribe ⟨[], none, none, [(5, 1)]⟩ 7 2).1
        (subscribe ⟨[], none, none, [(5, 1)]⟩ 7 2).2).subscribers =
      [(5, 1)] ∧
    notifySubscribers (subscribe ⟨[], none, none, [(5, 1)]⟩ 7 2).1 true
        none =
      [Event.notify 1 true none, Event.notify 2 true none] ∧
    notifySubscribers (unsubscribe (subscribe ⟨[], none, none,
          [(5, 1)]⟩ 7 2).1
        (subscribe ⟨[], none, none, [(5, 1)]⟩ 7 2).2) true none =
      [Event.notify 1 true none] :=
  let H := subscribe_unsubscribe_exact ⟨[], none, none, [(5, 1)]⟩ 7 2
    (by decide)
  ⟨H.1, H.2.1, H.2.2.1 true none, H.2.2.2 true none⟩

theorem objGet_mapExpiry (f : Nat → Nat) (s : Auth0Web) (k : String) :
    objGet (mapExpiry f s).accessTokens k =
      (objGet s.accessTokens k).map
        fun e => TokenEntry.mk e.accessToken (f e.expiresAt) := by
  have h := objGet_map_val
    (fun (e : TokenEntry) => TokenEntry.mk e.accessToken (f e.expiresAt))
    s.accessTokens k
  exact h

/-- C9: `getAccessToken` returns the cached entry's token string at the
requested slot (default slot when no audience is given) and is absent
exactly when no entry exists; `isAuthenticated` is a pure presence check on
the same slot; neither consults `expiresAt` — rewriting every cached expiry
arbitrarily (for instance, into the past) changes neither accessor. -/
theorem presence_only_accessors (s : Auth0Web) (a : Option String)
    (f : Nat → Nat) :
    getAccessToken s a =
      (objGet s.accessTokens (jsOrDefault a)).map TokenEntry.accessToken ∧
    isAuthenticated s a = (objGet s.accessTokens (jsOrDefault a)).isSome ∧
    (getAccessToken s a).isSome = isAuthenticated s a ∧
    isAuthenticated (mapExpiry f s) a = isAuthenticated s a ∧
    getAccessToken (mapExpiry f s) a = getAccessToken s a := by
  refine ⟨?_, rfl, getAccessToken_isSome s a, ?_, ?_⟩
  · unfold getAccessToken
    cases objGet s.accessTokens (jsOrDefault a) <;> rfl
  · unfold isAuthenticated
    rw [objGet_mapExpiry]
    cases objGet s.accessTokens (jsOrDefault a) <;> rfl
  · unfold getAccessToken
    rw [objGet_mapExpiry]
    cases objGet s.accessTokens (jsOrDefault a) <;> rfl

/-- C10: subscriber notifications arise only from a successful profile load
(`authenticated = true`) and from session clearing (`authenticated =
false`): on `checkSession`'s already-authenticated short-circuit path no
event is emitted and the stored profile and identity token are unchanged
even though the token cache was written; the error paths of `checkSession`
and `parseHash` and a failed `userInfo` fetch notify nobody; `signOut` (via
`clearSession`) notifies every subscriber with `false`. -/
theorem notifications_only_load_and_clear (s : Auth0Web) (a : Option String)
    (now : Nat) (r : AuthResult) (e : ProviderError) (u : UserInfoResp)
    (p : Auth0UserProfile) (rt : Option String) :
    (isAuthenticated s = true →
      (checkSession s a now (.ok r) u).2.2 = [] ∧
      (checkSession s a now (.ok r) u).1.profile = s.profile ∧
      (checkSession s a now (.ok r) u).1.idToken = s.idToken ∧
      (checkSession s a now (.ok r) u).1.accessTokens =
        (addAccessToken s r.accessToken (r.expiresIn * 1000 + now)
          a).accessTokens) ∧
    (checkSession s a now (.error e) u).2.2 = [] ∧
    (isAuthenticated s = false →
      (checkSession s a now (.ok r) (.error e)).2.2 =
        [Event.clearHash, Event.userInfoFetch r.accessToken]) ∧
    (parseHash s (.error e) now u).2.2 = [] ∧
    (parseHash s (.ok r) now (.error e)).2.2 =
      [Event.clearHash, Event.userInfoFetch r.accessToken] ∧
    (loadProfile s r a now (.error e)).2.2 =
      [Event.userInfoFetch r.accessToken] ∧
    (loadProfile s r a now (.ok p)).2.2 =
      Event.userInfoFetch r.accessToken ::
        (s.subscribers.map fun kv => Event.notify kv.2 true none) ∧
    (signOut s rt).2 =
      (s.subscribers.map fun kv => Event.notify kv.2 false none) ++
        [Event.logout rt] ∧
    (clearSession s).2 =
      s.subscribers.map fun kv => Event.notify kv.2 false none := by
  refine ⟨?_, ?_, ?_, rfl, rfl, rfl, rfl, rfl, rfl⟩
  · intro h
    rw [checkSession_shortcut_eq s a now r u h]
    exact ⟨rfl, rfl, rfl, rfl⟩
  · simp only [checkSession]
    by_cases hb : e.error ≠ some "login_required"
    · rw [if_pos hb]
    · rw [if_neg hb]
  · intro h
    rw [checkSession_loadErr_eq s a now r e h]

/-- Witness for C10: the short-circuit path on a concrete authenticated
state emits nothing and keeps the profile; a failed profile fetch on a fresh
state emits only the hash clearing and the fetch, no notification. -/
theorem notifications_only_load_and_clear_witness :
    (checkSession ⟨[("default", ⟨"tok0", 50⟩)], some "id0", some "p0",
        [(1, 7)]⟩ (some "urn:x") 3 (.ok ⟨"tokN", "idN", 7200⟩)
        (.ok "q")).2.2 = [] ∧
    (checkSession ⟨[("default", ⟨"tok0", 50⟩)], some "id0", some "p0",
        [(1, 7)]⟩ (some "urn:x") 3 (.ok ⟨"tokN", "idN", 7200⟩)
        (.ok "q")).1.profile = some "p0" ∧
    (checkSession Auth0Web.init (some "urn:x") 3 (.ok ⟨"tokN", "idN", 7200⟩)
        (.error ⟨some "boom"⟩)).2.2 =
      [Event.clearHash, Event.userInfoFetch "tokN"] :=
  let H1 := notifications_only_load_and_clear
    ⟨[("default", ⟨"tok0", 50⟩)], some "id0", some "p0", [(1, 7)]⟩
    (some "urn:x") 3 ⟨"tokN", "idN", 7200⟩ ⟨some "boom"⟩ (.ok "q") "q" none
  let H2 := notifications_only_load_and_clear Auth0Web.init (some "urn:x") 3
    ⟨"tokN", "idN", 7200⟩ ⟨some "boom"⟩ (.ok "q") "q" none
  ⟨(H1.1 (by decide)).1, (H1.1 (by decide)).2.1, H2.2.2.1 (by decide)⟩
